import Mathlib

/-!
# Verification of the tagger Tag/File Store and Query Engine

Shallow embedding of the core of `src/tagger/tagger.py` (the tag/file
store: `get_fingerprint`, `add_tags_to_files`, `list_files`,
`convert_dms_to_degrees`) together with theorems settling the claims
about it.

Modelling conventions:
* SQLite tables are Lean lists of row structures, kept in rowid
  (insertion) order; a full-table scan without `ORDER BY` returns rows
  in list order, and `fetchone` of a scan is `List.find?`.
* `INTEGER PRIMARY KEY` assignment is `max existing id + 1`.
* The Python `with sqlite3.connect(...) as con:` block always commits,
  because every exception is caught inside the block; accordingly every
  execution path of the model returns the mutated database.
* The filesystem and clock are an explicit environment `Env`; byte
  strings are `List Nat`.
* SHA-1 is collision-resistant and deterministic, so `get_fingerprint`
  is modelled as returning the exact byte sequence that the Python code
  feeds to the hash; `none` models the `OSError` that
  `f.seek(-64000, 2)` raises when the file is shorter than 64000 bytes.
-/

namespace Tagger

/-- A row of the `tags` table: `tag_id INTEGER PRIMARY KEY, name TEXT`. -/
structure TagRow where
  tag_id : Nat
  name : String
deriving DecidableEq

/-- A row of the `files` table, with the exact column set of the schema
created by `init_database`. -/
structure FileRow where
  file_id : Nat
  name : String
  directory : String
  fingerprint : String
  mod_time : Nat
  size : Nat
  is_dir : Bool
deriving DecidableEq

/-- A row of the association table `tag_files`, composite primary key
`(tag_id, file_id)`. -/
structure TF where
  tag_id : Nat
  file_id : Nat
deriving DecidableEq

/-- The three relations of the store, each in rowid (insertion) order. -/
structure DB where
  tags : List TagRow
  files : List FileRow
  tag_files : List TF
deriving DecidableEq

/-- What the OS reports for an existing path: the absolute path split
into basename and directory (`os.path.basename` / `os.path.dirname` of
`os.path.abspath`), the digest `get_fingerprint` would produce, the
`os.stat` size and `os.path.isdir`. -/
structure FileInfo where
  basename : String
  dirname : String
  fingerprint : String
  size : Nat
  is_dir : Bool
deriving DecidableEq

/-- The environment of one invocation: `lookup` is `os.path.exists`
plus the path metadata (`none` for a nonexistent path), `now` is
`datetime.now()`. -/
structure Env where
  lookup : String → Option FileInfo
  now : Nat

/-- Fingerprint engine (`get_fingerprint`).  The Python code reads the
first 64000 bytes, seeks to 64000 before the end (`f.seek(-64000, 2)`,
which raises `OSError` when the file is shorter than 64000 bytes,
modelled by `none`), reads 64000 bytes, seeks to half that offset and
reads 64000 bytes, and returns the SHA-1 hex digest of the three reads
concatenated.  The model returns the concatenated sampled bytes — the
exact input of the deterministic hash. -/
def get_fingerprint (content : List Nat) : Option (List Nat) :=
  let part1 := content.take 64000
  if content.length < 64000 then
    none
  else
    let pos := content.length - 64000
    let part2 := (content.drop pos).take 64000
    let part3 := (content.drop (pos / 2)).take 64000
    some (part1 ++ part2 ++ part3)

/-- GPS conversion (`convert_dms_to_degrees`), with Python float
arithmetic embedded as exact rational arithmetic. -/
def convert_dms_to_degrees (lat_ref : String) (lat : ℚ × ℚ × ℚ)
    (lng_ref : String) (lng : ℚ × ℚ × ℚ) : ℚ × ℚ :=
  let lat_deg := lat.1 + lat.2.1 / 60 + lat.2.2 / 3600
  let lng_deg := lng.1 + lng.2.1 / 60 + lng.2.2 / 3600
  let lat_deg := if lat_ref = "S" then -lat_deg else lat_deg
  let lng_deg := if lng_ref = "W" then -lng_deg else lng_deg
  (lat_deg, lng_deg)

/-- How one call of `add_tags_to_files` ended.  `ok`: no exception.
`uniqueAbort`: an `INSERT INTO tag_files` hit the composite primary
key, the `UNIQUE constraint failed` branch of the handler printed a
message and returned early.  `otherError`: some other exception was
caught and logged (e.g. `get_fingerprint` raising `OSError`, or
unpacking a `fetchone()` that returned no row).  In every case the
`with` block exits without a pending exception, so SQLite commits. -/
inductive TagResult where
  | ok : TagResult
  | uniqueAbort : TagResult
  | otherError : TagResult
deriving DecidableEq

/-- Result of one `add_tags_to_files` call: the committed database, the
caller's `files` list as the in-place mutation left it, and how the
call ended. -/
structure TagOutcome where
  db : DB
  files : List String
  result : TagResult
deriving DecidableEq

/-- Fresh `tag_id` assigned by SQLite for `INTEGER PRIMARY KEY`:
one more than the largest existing rowid. -/
def nextTagId (db : DB) : Nat :=
  db.tags.foldl (fun m r => max m r.tag_id) 0 + 1

/-- Fresh `file_id`, same rule as `nextTagId`. -/
def nextFileId (db : DB) : Nat :=
  db.files.foldl (fun m r => max m r.file_id) 0 + 1

/-- Phase 1 of `add_tags_to_files`: for each tag name, `SELECT name
FROM tags WHERE name = ?`; if no row, `INSERT INTO tags(name)` and
record `cur.lastrowid`, else record the `tag_id` of the first row with
that name. -/
def insertTagsAux (db : DB) (acc : List Nat) : List String → DB × List Nat
  | [] => (db, acc)
  | tag :: rest =>
    match db.tags.find? (fun r => r.name == tag) with
    | some r => insertTagsAux db (acc ++ [r.tag_id]) rest
    | none =>
        let id := nextTagId db
        insertTagsAux { db with tags := db.tags ++ [⟨id, tag⟩] }
          (acc ++ [id]) rest

/-- Phase 1 entry point: start with the incoming store and an empty
`tag_ids` accumulator. -/
def insertTags (db : DB) (tags : List String) : DB × List Nat :=
  insertTagsAux db [] tags

/-- Per-file body of phase 2 for a path that exists on disk: `SELECT
name FROM files WHERE name = ? AND directory = ?`; if no row, compute
the fingerprint (raising, modelled `.error`, when the file is shorter
than 64000 bytes — the `f.seek(-64000, 2)` `OSError`) and `INSERT` a
new row, recording `cur.lastrowid`; if a row exists, record the
`file_id` of the first row matching `SELECT file_id FROM files WHERE
name = ?` — by basename only.  Unpacking an empty `fetchone()` would
raise, modelled `.error`. -/
def lookupOrInsertFile (env : Env) (db : DB) (info : FileInfo) :
    Except Unit (DB × Nat) :=
  if (db.files.find? (fun r =>
        r.name == info.basename && r.directory == info.dirname)).isSome then
    match db.files.find? (fun r => r.name == info.basename) with
    | some r => .ok (db, r.file_id)
    | none => .error ()
  else
    if info.size < 64000 then
      .error ()
    else
      let id := nextFileId db
      .ok ({ db with
              files := db.files ++
                [{ file_id := id
                   name := info.basename
                   directory := info.dirname
                   fingerprint := info.fingerprint
                   mod_time := env.now
                   size := info.size
                   is_dir := info.is_dir }] }, id)

/-- Phase 2 of `add_tags_to_files`: Python's `for file in files:` is an
index-based iteration, modelled with the index `k` and enough fuel
(`files.length` at the start never runs out, since `files.length - k`
strictly decreases).  A nonexistent path is removed from the iterated
list in place (`files.remove(file)` removes the first occurrence of
the value), after which the iterator's next index belongs to the
shortened list.  A per-file exception aborts the whole loop (fourth
component `true`). -/
def filesLoop (env : Env) :
    Nat → Nat → List String → DB → List Nat →
      List String × DB × List Nat × Bool
  | 0, _, files, db, fids => (files, db, fids, false)
  | fuel + 1, k, files, db, fids =>
    if h : k < files.length then
      match env.lookup files[k] with
      | none => filesLoop env fuel (k + 1) (files.erase files[k]) db fids
      | some info =>
          match lookupOrInsertFile env db info with
          | .error _ => (files, db, fids, true)
          | .ok (db2, id) => filesLoop env fuel (k + 1) files db2 (fids ++ [id])
    else
      (files, db, fids, false)

/-- Phase 3 of `add_tags_to_files`: `for tag_id in tag_ids: for file_id
in file_ids:` insert each pair into `tag_files`.  A pair that already
exists violates the composite primary key; the handler's `UNIQUE
constraint failed` branch returns from the function at once (second
component `true`), keeping the pairs inserted before it and never
attempting the pairs after it. -/
def insertPairs (db : DB) : List (Nat × Nat) → DB × Bool
  | [] => (db, false)
  | pr :: rest =>
    if TF.mk pr.1 pr.2 ∈ db.tag_files then
      (db, true)
    else
      insertPairs { db with tag_files := db.tag_files ++ [⟨pr.1, pr.2⟩] } rest

/-- The row-major Cartesian product of the two id lists, in the order
the nested Python loops attempt the association inserts. -/
def idPairs (tag_ids file_ids : List Nat) : List (Nat × Nat) :=
  (tag_ids.map (fun t => file_ids.map (fun f => (t, f)))).flatten

/-- Association engine: `add_tags_to_files(db_path, tags, files)`.
Phases 1–3 run inside one `try` inside `with sqlite3.connect(...) as
con:`; every exception is caught inside the `with` block, so the block
always exits cleanly and SQLite commits whatever was executed — on the
unique-constraint early return and on a logged unexpected exception
just as on success. -/
def add_tags_to_files (env : Env) (db : DB) (tags : List String)
    (files : List String) : TagOutcome :=
  let p1 := insertTags db tags
  let p2 := filesLoop env files.length 0 files p1.1 []
  if p2.2.2.2 then
    { db := p2.2.1, files := p2.1, result := .otherError }
  else
    let p3 := insertPairs p2.2.1 (idPairs p1.2 p2.2.2.1)
    { db := p3.1, files := p2.1
      result := if p3.2 then .uniqueAbort else .ok }

/-- `directory || os.sep || name`, how `list_files` renders a row as a
path (`os.sep` is `/`). -/
def path_of (r : FileRow) : String :=
  r.directory ++ "/" ++ r.name

/-- Lexicographic comparison of character lists by codepoint — the
order SQLite's default BINARY collation induces on UTF-8 text. -/
def charsLe : List Char → List Char → Bool
  | [], _ => true
  | _ :: _, [] => false
  | a :: as, b :: bs =>
    if a.toNat < b.toNat then true
    else if b.toNat < a.toNat then false
    else charsLe as bs

/-- String comparison used by `ORDER BY` (BINARY collation). -/
def strLe (a b : String) : Bool :=
  charsLe a.data b.data

/-- Insert a row into a list already sorted by `name` (helper for the
model of `ORDER BY f.name`; SQL leaves the relative order of equal
keys unspecified, the model fixes one). -/
def insertByName (r : FileRow) : List FileRow → List FileRow
  | [] => [r]
  | s :: t =>
    if strLe r.name s.name then r :: s :: t else s :: insertByName r t

/-- Sort rows by `name` — the model of `ORDER BY f.name`. -/
def sortByName (l : List FileRow) : List FileRow :=
  l.foldr insertByName []

/-- `SELECT DISTINCT directory, name`: keep the first row for each
`(directory, name)` pair. -/
def dedupPairsAux (seen : List (String × String)) :
    List FileRow → List FileRow
  | [] => []
  | r :: t =>
    if (r.directory, r.name) ∈ seen then
      dedupPairsAux seen t
    else
      r :: dedupPairsAux ((r.directory, r.name) :: seen) t

/-- Whether a file row joins to a `tag_files` row whose tag is named
`tag` — the JOIN/WHERE condition of the per-tag query in `list_files`. -/
def matchesTag (db : DB) (tag : String) (f : FileRow) : Bool :=
  db.tag_files.any (fun tf =>
    tf.file_id == f.file_id &&
      db.tags.any (fun t => t.tag_id == tf.tag_id && t.name == tag))

/-- The per-tag query of `list_files`: `SELECT DISTINCT f.directory,
f.name FROM files f JOIN tag_files tf ON f.file_id = tf.file_id JOIN
tags t ON tf.tag_id = t.tag_id WHERE t.name = ? ORDER BY f.name`,
rendered as paths. -/
def files_with_tag (db : DB) (tag : String) : List String :=
  (sortByName (dedupPairsAux [] (db.files.filter (matchesTag db tag)))).map
    path_of

/-- `for path in paths: if path not in files: files.append(path)` —
append the paths not already listed. -/
def addNew (acc : List String) : List String → List String
  | [] => acc
  | p :: rest => if p ∈ acc then addNew acc rest else addNew (acc ++ [p]) rest

/-- The per-tag loop of `list_files` over the query tokens: union with
deduplication, in token order. -/
def unionLoop (db : DB) (acc : List String) : List String → List String
  | [] => acc
  | tag :: rest => unionLoop db (addNew acc (files_with_tag db tag)) rest

/-- Query engine: `list_files(db_path, options)` with the HTML branch
(out of scope) stripped.  Every option token is appended to `tags` —
there is no operator handling.  With no tokens: `SELECT directory,
name FROM files;` (no `ORDER BY`), rows in table order.  Otherwise:
for each token, in order, run the per-tag query and append the paths
not already collected. -/
def list_files (db : DB) (tags : List String) : List String :=
  if tags.isEmpty then
    db.files.map path_of
  else
    unionLoop db [] tags

/-- Whether a list of strings is in nondecreasing order (used to state
the `ordered by name` part of the query claims; over rows sharing one
directory, path order agrees with name order). -/
def sortedByLe : List String → Bool
  | [] => true
  | [_] => true
  | a :: b :: t => strLe a b && sortedByLe (b :: t)

/-! ## Concrete stores and environments used by the claim theorems -/

/-- The empty store, as `init_database` leaves it. -/
def db0 : DB := { tags := [], files := [], tag_files := [] }

/-- Environment in which no path exists on disk. -/
def envNone : Env := { lookup := fun _ => none, now := 0 }

/-- Two readable 64000-byte files `/p/a.png` and `/p/b.png`. -/
def env1 : Env :=
  { lookup := fun p =>
      if p == "/p/a.png" then some ⟨"a.png", "/p", "fa", 64000, false⟩
      else if p == "/p/b.png" then some ⟨"b.png", "/p", "fb", 64000, false⟩
      else none
    now := 0 }

/-- Store holding tag `t`, file rows for `/p/a.png` (id 1) and
`/p/b.png` (id 2), and the single association `(t, b.png)`. -/
def db1 : DB :=
  { tags := [⟨1, "t"⟩]
    files := [⟨1, "a.png", "/p", "fa", 0, 64000, false⟩,
              ⟨2, "b.png", "/p", "fb", 0, 64000, false⟩]
    tag_files := [⟨1, 2⟩] }

/-- Like `db1` but the existing association is `(t, a.png)`. -/
def db2 : DB :=
  { tags := [⟨1, "t"⟩]
    files := [⟨1, "a.png", "/p", "fa", 0, 64000, false⟩,
              ⟨2, "b.png", "/p", "fb", 0, 64000, false⟩]
    tag_files := [⟨1, 1⟩] }

/-- Store for the boolean-query claims: `x.png` is tagged `bird`,
`y.png` is tagged `bird` and `indoor`. -/
def db3 : DB :=
  { tags := [⟨1, "bird"⟩, ⟨2, "indoor"⟩]
    files := [⟨1, "x.png", "/p", "fx", 0, 64000, false⟩,
              ⟨2, "y.png", "/p", "fy", 0, 64000, false⟩]
    tag_files := [⟨1, 1⟩, ⟨1, 2⟩, ⟨2, 2⟩] }

/-- Store with two file rows sharing the basename `a.png` in different
directories, and no tags yet. -/
def db4 : DB :=
  { tags := []
    files := [⟨1, "a.png", "/d1", "f1", 0, 64000, false⟩,
              ⟨2, "a.png", "/d2", "f2", 0, 64000, false⟩]
    tag_files := [] }

/-- Environment where `/d2/a.png` exists (and `/d1/a.png` is not
touched). -/
def env4 : Env :=
  { lookup := fun p =>
      if p == "/d2/a.png" then some ⟨"a.png", "/d2", "f2", 64000, false⟩
      else none
    now := 0 }

/-- Environment where `/present.png` exists and `/missing.png` does
not. -/
def env5 : Env :=
  { lookup := fun p =>
      if p == "/present.png" then some ⟨"present.png", "/d", "fp", 64000, false⟩
      else none
    now := 0 }

/-- Store for the union-ordering claim: `z.png` is tagged `a`, `a.png`
is tagged `b`, both in directory `/p`. -/
def db7 : DB :=
  { tags := [⟨1, "a"⟩, ⟨2, "b"⟩]
    files := [⟨1, "z.png", "/p", "fz", 0, 64000, false⟩,
              ⟨2, "a.png", "/p", "fa", 0, 64000, false⟩]
    tag_files := [⟨1, 1⟩, ⟨2, 2⟩] }

/-- Store with one tag named `a`, used as a uniqueness witness. -/
def db8 : DB := { tags := [⟨1, "a"⟩], files := [], tag_files := [] }

/-! ## Claim theorems -/

/-- C1: the batch is not atomic.  Starting from `db1` (tag `t`, files
`a.png`/`b.png`, association `(t, b.png)`), the call
`add_tags_to_files(["t", "u"], [a.png, b.png])` fails partway (the
association insert `(t, b.png)` hits the composite primary key and the
handler returns early), yet the new tag row `u` and the new
association `(t, a.png)` inserted before the failure are committed —
not zero new rows in all three relations. -/
theorem add_tags_commits_despite_failure :
    (add_tags_to_files env1 db1 ["t", "u"] ["/p/a.png", "/p/b.png"]).result
        = TagResult.uniqueAbort ∧
    (add_tags_to_files env1 db1 ["t", "u"] ["/p/a.png", "/p/b.png"]).db.tags
        = [⟨1, "t"⟩, ⟨2, "u"⟩] ∧
    (add_tags_to_files env1 db1 ["t", "u"] ["/p/a.png", "/p/b.png"]).db.tag_files
        = [⟨1, 2⟩, ⟨1, 1⟩] ∧
    db1.tags = [⟨1, "t"⟩] ∧ db1.tag_files = [⟨1, 2⟩] := by
  decide

/-- C2 counterexample: with `(t, a.png)` already associated (`db2`),
tagging `t` onto both files aborts at the first pair: the absent pair
`(t, b.png)` — `TF.mk 1 2` — of the Cartesian product is never
inserted, refuting the claim that not-yet-present pairs are still
inserted when an earlier pair of the batch already existed. -/
theorem assoc_insert_skips_after_duplicate :
    TF.mk 1 2 ∉
      (add_tags_to_files env1 db2 ["t"] ["/p/a.png", "/p/b.png"]).db.tag_files ∧
    (add_tags_to_files env1 db2 ["t"] ["/p/a.png", "/p/b.png"]).db.tag_files
        = [⟨1, 1⟩] ∧
    (add_tags_to_files env1 db2 ["t"] ["/p/a.png", "/p/b.png"]).result
        = TagResult.uniqueAbort := by
  decide

/-- C2 amended: when every pair of the batch already exists (exact
re-application), the first pair's uniqueness error returns early and
the store is unchanged. -/
theorem insertPairs_all_present_unchanged (db : DB) (prs : List (Nat × Nat))
    (h : ∀ pr ∈ prs, TF.mk pr.1 pr.2 ∈ db.tag_files) :
    (insertPairs db prs).1 = db := by
  cases prs with
  | nil => rfl
  | cons pr rest =>
      have hmem : TF.mk pr.1 pr.2 ∈ db.tag_files := h pr (by simp)
      simp [insertPairs, hmem]

/-- Witness for `insertPairs_all_present_unchanged`: re-inserting the
one existing pair of `db2` leaves the store unchanged. -/
theorem insertPairs_all_present_unchanged_witness :
    (insertPairs db2 [(1, 1)]).1 = db2 :=
  insertPairs_all_present_unchanged db2 [(1, 1)] (by decide)

/-- C3: `list_files` has no boolean evaluator.  Over `db3` (`x.png`
tagged `bird`, `y.png` tagged `bird` and `indoor`) the token sequence
`bird AND NOT indoor` is treated as four tag literals and unioned, so
`y.png` is returned as well — not only `x.png` as the claimed
evaluation `bird ∧ ¬indoor` would produce. -/
theorem list_files_no_boolean_operators :
    list_files db3 ["bird", "AND", "NOT", "indoor"]
        = ["/p/x.png", "/p/y.png"] ∧
    list_files db3 ["bird", "AND", "NOT", "indoor"] ≠ ["/p/x.png"] := by
  decide

/-- C4 counterexample: `db4` has two rows with basename `a.png`, row 1
in `/d1` and row 2 in `/d2`.  Tagging `/d2/a.png` creates no new file
row (dedup by `(name, directory)` fires), but the association is
written to `file_id` 1 — the `/d1` row, fetched by basename alone —
and not to the row whose `(name, directory)` pair matched. -/
theorem assoc_target_by_basename_only :
    (add_tags_to_files env4 db4 ["t"] ["/d2/a.png"]).db.files = db4.files ∧
    (add_tags_to_files env4 db4 ["t"] ["/d2/a.png"]).db.tag_files = [⟨1, 1⟩] ∧
    TF.mk 1 2 ∉ (add_tags_to_files env4 db4 ["t"] ["/d2/a.png"]).db.tag_files ∧
    db4.files.find? (fun r => r.name == "a.png" && r.directory == "/d2")
        = some ⟨2, "a.png", "/d2", "f2", 0, 64000, false⟩ := by
  decide

/-- C5: one nonexistent path does prevent the next file from being
tagged.  With `/missing.png` absent and `/present.png` present, the
in-place `files.remove` shifts the list during iteration, so
`/present.png` is never visited: no file row is created for it and no
association is made, leaving the store empty. -/
theorem missing_path_skips_next_file :
    env5.lookup "/present.png" ≠ none ∧
    (add_tags_to_files env5 db0 ["t"] ["/missing.png", "/present.png"]).db.files
        = [] ∧
    (add_tags_to_files env5 db0 ["t"] ["/missing.png", "/present.png"]).db.tag_files
        = [] ∧
    (add_tags_to_files env5 db0 ["t"] ["/missing.png", "/present.png"]).files
        = ["/present.png"] := by
  decide

/-- C6: `get_fingerprint` fails on every file shorter than 64000
bytes: `f.seek(-64000, 2)` raises `OSError` (modelled `none`) instead
of returning a digest. -/
theorem get_fingerprint_small_file_fails (content : List Nat)
    (h : content.length < 64000) :
    get_fingerprint content = none := by
  simp [get_fingerprint, h]

/-- Witness for `get_fingerprint_small_file_fails`: the empty file. -/
theorem get_fingerprint_small_file_fails_witness :
    get_fingerprint [] = none :=
  get_fingerprint_small_file_fails [] (by decide)

/-- C7 counterexample: over `db7` (`z.png` tagged `a`, `a.png` tagged
`b`, same directory), the union query for `[a, b]` returns `z.png`
before `a.png` — each tag's rows are name-sorted but the concatenation
is not — and the empty query (no `ORDER BY` at all) returns table
order, also not sorted by name. -/
theorem list_files_union_not_name_ordered :
    list_files db7 ["a", "b"] = ["/p/z.png", "/p/a.png"] ∧
    sortedByLe (list_files db7 ["a", "b"]) = false ∧
    list_files db7 [] = ["/p/z.png", "/p/a.png"] ∧
    sortedByLe (list_files db7 []) = false := by
  decide

/-- C9: `convert_dms_to_degrees` computes `deg + min/60 + sec/3600`
for each coordinate, negating latitude exactly when the reference is
`"S"` and longitude exactly when it is `"W"`; any other reference
(`"N"`, `"E"`, lowercase) leaves the value un-negated, and the spec's
example yields `(-10.5, -20.25)`. -/
theorem convert_dms_to_degrees_spec :
    (∀ lat_ref lat lng_ref lng,
        convert_dms_to_degrees lat_ref lat lng_ref lng =
          ((if lat_ref = "S" then -(lat.1 + lat.2.1 / 60 + lat.2.2 / 3600)
            else lat.1 + lat.2.1 / 60 + lat.2.2 / 3600),
           (if lng_ref = "W" then -(lng.1 + lng.2.1 / 60 + lng.2.2 / 3600)
            else lng.1 + lng.2.1 / 60 + lng.2.2 / 3600))) ∧
    convert_dms_to_degrees "S" (10, 30, 0) "W" (20, 15, 0)
        = (-(21 / 2 : ℚ), -(81 / 4 : ℚ)) ∧
    convert_dms_to_degrees "s" (10, 30, 0) "w" (20, 15, 0)
        = ((21 / 2 : ℚ), (81 / 4 : ℚ)) ∧
    convert_dms_to_degrees "N" (10, 30, 0) "E" (20, 15, 0)
        = ((21 / 2 : ℚ), (81 / 4 : ℚ)) := by
  refine ⟨fun lat_ref lat lng_ref lng => rfl, ?_, ?_, ?_⟩ <;>
    norm_num [convert_dms_to_degrees] <;> refine ⟨by decide, by decide⟩

/-- Phase 3 never modifies the `tags` relation. -/
theorem insertPairs_tags (prs : List (Nat × Nat)) :
    ∀ db : DB, (insertPairs db prs).1.tags = db.tags := by
  induction prs with
  | nil => intro db; rfl
  | cons pr rest ih =>
      intro db
      by_cases h : TF.mk pr.1 pr.2 ∈ db.tag_files
      · simp [insertPairs, h]
      · simp [insertPairs, h, ih]

/-- A successful per-file step never modifies the `tags` relation. -/
theorem lookupOrInsertFile_tags (env : Env) (db : DB) (info : FileInfo) :
    ∀ db2 id, lookupOrInsertFile env db info = .ok (db2, id) →
      db2.tags = db.tags := by
  intro db2 id h
  unfold lookupOrInsertFile at h
  split at h
  · split at h
    · simp only [Except.ok.injEq, Prod.mk.injEq] at h
      obtain ⟨rfl, rfl⟩ := h
      rfl
    · simp at h
  · split at h
    · simp at h
    · simp only [Except.ok.injEq, Prod.mk.injEq] at h
      obtain ⟨rfl, rfl⟩ := h
      rfl

/-- Phase 2 never modifies the `tags` relation. -/
theorem filesLoop_tags (env : Env) (fuel : Nat) :
    ∀ k files db fids, ((filesLoop env fuel k files db fids).2.1).tags = db.tags := by
  induction fuel with
  | zero => intro k files db fids; rfl
  | succ fuel ih =>
      intro k files db fids
      simp only [filesLoop]
      split
      · split
        · exact ih _ _ _ _
        · split
          · rfl
          · next db2 id heq =>
              rw [ih]
              exact lookupOrInsertFile_tags env db _ db2 id heq
      · rfl

/-- The `tags` relation after `add_tags_to_files` is exactly what
phase 1 left. -/
theorem add_tags_to_files_tags (env : Env) (db : DB)
    (tags files : List String) :
    (add_tags_to_files env db tags files).db.tags
      = (insertTags db tags).1.tags := by
  simp only [add_tags_to_files]
  split
  · exact filesLoop_tags env _ _ _ _ _
  · rw [insertPairs_tags]
    exact filesLoop_tags env _ _ _ _ _

/-- Phase 1 preserves uniqueness of tag names: a name with an existing
row is reused, a batch-internal duplicate finds the row the batch
itself inserted. -/
theorem insertTagsAux_names_nodup (tags : List String) :
    ∀ db acc, (db.tags.map TagRow.name).Nodup →
      ((insertTagsAux db acc tags).1.tags.map TagRow.name).Nodup := by
  induction tags with
  | nil => intro db acc h; exact h
  | cons tag rest ih =>
      intro db acc h
      cases hf : db.tags.find? (fun r => r.name == tag) with
      | some r =>
          simp only [insertTagsAux, hf]
          exact ih _ _ h
      | none =>
          simp only [insertTagsAux, hf]
          apply ih
          have hnot : ∀ r ∈ db.tags, ¬ r.name = tag := by
            intro r hr
            have := List.find?_eq_none.mp hf r hr
            simpa using this
          simp only [List.map_append, List.map_cons, List.map_nil]
          rw [List.nodup_append]
          refine ⟨h, List.nodup_singleton _, ?_⟩
          intro a ha hb
          rw [List.mem_singleton] at hb
          subst hb
          rcases List.mem_map.mp ha with ⟨r, hr, hname⟩
          exact hnot r hr hname

/-- C8: tag-name uniqueness is an invariant of every tagging
invocation — if the names in `tags` are unique before
`add_tags_to_files`, they are unique afterwards, because a present
name (also one inserted earlier in the same batch) is looked up and
reused instead of inserted again. -/
theorem add_tags_preserves_tag_name_uniqueness (env : Env) (db : DB)
    (tags files : List String) (h : (db.tags.map TagRow.name).Nodup) :
    ((add_tags_to_files env db tags files).db.tags.map TagRow.name).Nodup := by
  rw [add_tags_to_files_tags]
  exact insertTagsAux_names_nodup tags db [] h

/-- Witness for `add_tags_preserves_tag_name_uniqueness`: a batch with
an already-stored name and a batch-internal duplicate. -/
theorem add_tags_preserves_tag_name_uniqueness_witness :
    ((add_tags_to_files envNone db8 ["a", "b", "b"] []).db.tags.map
      TagRow.name).Nodup :=
  add_tags_preserves_tag_name_uniqueness envNone db8 ["a", "b", "b"] []
    (by decide)

/-- Membership in the dedup-append loop of `list_files`. -/
theorem mem_addNew (p : String) (ps : List String) :
    ∀ acc, p ∈ addNew acc ps ↔ p ∈ acc ∨ p ∈ ps := by
  induction ps with
  | nil => intro acc; simp [addNew]
  | cons q rest ih =>
      intro acc
      by_cases hq : q ∈ acc
      · simp only [addNew, if_pos hq, ih, List.mem_cons]
        constructor
        · rintro (h | h)
          · exact Or.inl h
          · exact Or.inr (Or.inr h)
        · rintro (h | h | h)
          · exact Or.inl h
          · exact Or.inl (by rw [h]; exact hq)
          · exact Or.inr h
      · simp only [addNew, if_neg hq, ih, List.mem_append,
          List.mem_singleton, List.mem_cons, List.not_mem_nil, or_false]
        rw [or_assoc]

/-- The dedup-append loop keeps the accumulated list duplicate-free. -/
theorem addNew_nodup (ps : List String) :
    ∀ acc, acc.Nodup → (addNew acc ps).Nodup := by
  induction ps with
  | nil => intro acc h; exact h
  | cons q rest ih =>
      intro acc h
      by_cases hq : q ∈ acc
      · simp only [addNew, if_pos hq]
        exact ih acc h
      · simp only [addNew, if_neg hq]
        refine ih _ ?_
        rw [List.nodup_append]
        refine ⟨h, List.nodup_singleton _, ?_⟩
        intro a ha hb
        rw [List.mem_singleton] at hb
        subst hb
        exact hq ha

/-- Membership in the per-token union loop of `list_files`. -/
theorem mem_unionLoop (db : DB) (p : String) (tags : List String) :
    ∀ acc, p ∈ unionLoop db acc tags ↔
      p ∈ acc ∨ ∃ t ∈ tags, p ∈ files_with_tag db t := by
  induction tags with
  | nil => intro acc; simp [unionLoop]
  | cons tag rest ih =>
      intro acc
      simp only [unionLoop]
      rw [ih, mem_addNew]
      simp only [List.exists_mem_cons_iff]
      rw [or_assoc]

/-- The union loop returns a duplicate-free list. -/
theorem unionLoop_nodup (db : DB) (tags : List String) :
    ∀ acc : List String, acc.Nodup → (unionLoop db acc tags).Nodup := by
  induction tags with
  | nil => intro acc h; exact h
  | cons tag rest ih =>
      intro acc h
      simp only [unionLoop]
      exact ih _ (addNew_nodup _ _ h)

/-- C7 amended: with an empty tag list `list_files` returns every file
in table (insertion) order; with tokens it returns the deduplicated
union — a path is returned exactly when it is associated with at least
one listed tag, with no duplicates — but the sequence is each token's
name-sorted rows concatenated in token order, not globally ordered by
name. -/
theorem list_files_union_membership (db : DB) (tags : List String)
    (h : tags ≠ []) :
    (∀ p, p ∈ list_files db tags ↔ ∃ t ∈ tags, p ∈ files_with_tag db t) ∧
    (list_files db tags).Nodup ∧
    list_files db [] = db.files.map path_of := by
  have he : tags.isEmpty = false := by
    cases tags with
    | nil => exact absurd rfl h
    | cons a t => rfl
  refine ⟨?_, ?_, rfl⟩
  · intro p
    simp only [list_files, he, Bool.false_eq_true, if_false]
    rw [mem_unionLoop]
    simp
  · simp only [list_files, he, Bool.false_eq_true, if_false]
    exact unionLoop_nodup db tags [] (List.nodup_nil)

/-- Witness for `list_files_union_membership`: over `db7`, `z.png`
(tagged only `a`) and `a.png` (tagged only `b`) are both returned for
the token list `[a, b]`. -/
theorem list_files_union_membership_witness :
    ("/p/z.png" ∈ list_files db7 ["a", "b"] ↔
      ∃ t ∈ ["a", "b"], "/p/z.png" ∈ files_with_tag db7 t) ∧
    ("/p/a.png" ∈ list_files db7 ["a", "b"] ↔
      ∃ t ∈ ["a", "b"], "/p/a.png" ∈ files_with_tag db7 t) :=
  ⟨(list_files_union_membership db7 ["a", "b"] (by decide)).1 "/p/z.png",
   (list_files_union_membership db7 ["a", "b"] (by decide)).1 "/p/a.png"⟩

/-- C4 amended: when `(name, directory)` already has a row, no file
row is inserted and the call succeeds — but the `file_id` handed to
the association phase is that of the *first* row whose basename
matches, whatever its directory; it belongs to the matching
`(name, directory)` row only when the basename picks it out. -/
theorem lookupOrInsertFile_reuses_first_basename_row (env : Env) (db : DB)
    (info : FileInfo)
    (h : ∃ r ∈ db.files, r.name = info.basename ∧ r.directory = info.dirname) :
    ∃ r ∈ db.files,
      db.files.find? (fun s => s.name == info.basename) = some r ∧
      lookupOrInsertFile env db info = .ok (db, r.file_id) := by
  obtain ⟨r0, hr0, hname, hdir⟩ := h
  have h1 : (db.files.find? (fun s =>
      s.name == info.basename && s.directory == info.dirname)).isSome := by
    rw [List.find?_isSome]
    exact ⟨r0, hr0, by simp [hname, hdir]⟩
  have h2 : (db.files.find? (fun s => s.name == info.basename)).isSome := by
    rw [List.find?_isSome]
    exact ⟨r0, hr0, by simp [hname]⟩
  obtain ⟨r, hr⟩ := Option.isSome_iff_exists.mp h2
  refine ⟨r, List.mem_of_find?_eq_some hr, hr, ?_⟩
  simp [lookupOrInsertFile, h1, hr]

/-- Witness for `lookupOrInsertFile_reuses_first_basename_row`: in
`db1`, looking up `a.png` in `/p` succeeds and reuses the first
`a.png` row. -/
theorem lookupOrInsertFile_reuses_first_basename_row_witness :
    ∃ r ∈ db1.files,
      db1.files.find? (fun s => s.name == "a.png") = some r ∧
      lookupOrInsertFile env1 db1 ⟨"a.png", "/p", "fa", 64000, false⟩ =
        .ok (db1, r.file_id) :=
  lookupOrInsertFile_reuses_first_basename_row env1 db1
    ⟨"a.png", "/p", "fa", 64000, false⟩ (by decide)

/-- C10 amended: a nonexistent path that the iteration visits is
removed in place from the caller's list, and the iteration resumes at
the next index of the shortened list — the element shifted into the
removed slot is skipped; the list shrinks by exactly one element per
removal. -/
theorem filesLoop_missing_path_removed_in_place (env : Env)
    (fuel k : Nat) (files : List String) (db : DB) (fids : List Nat)
    (h : k < files.length) (hm : env.lookup files[k] = none) :
    filesLoop env (fuel + 1) k files db fids =
      filesLoop env fuel (k + 1) (files.erase files[k]) db fids ∧
    (files.erase files[k]).length + 1 = files.length := by
  constructor
  · simp only [filesLoop, dif_pos h, hm]
  · have hmem : files[k] ∈ files := List.getElem_mem h
    have := List.length_erase_of_mem hmem
    omega

/-- Witness for `filesLoop_missing_path_removed_in_place`: the first
step of the loop on two nonexistent paths. -/
theorem filesLoop_missing_path_removed_in_place_witness :
    (filesLoop envNone 1 0 ["/b1", "/b2"] db0 [] =
      filesLoop envNone 0 1 (["/b1", "/b2"].erase "/b1") db0 []) ∧
    (["/b1", "/b2"].erase "/b1").length + 1 = 2 :=
  filesLoop_missing_path_removed_in_place envNone 0 0 ["/b1", "/b2"] db0 []
    (by decide) (by decide)

/-- C10 counterexample: with both `/b1` and `/b2` nonexistent, the
call removes `/b1` but leaves `/b2` in the caller's list — the removal
of `/b1` shifted `/b2` into the visited slot and the iteration skipped
it, refuting the claim that every nonexistent path is removed. -/
theorem files_list_mutation_incomplete_removal :
    envNone.lookup "/b2" = none ∧
    (add_tags_to_files envNone db0 ["t"] ["/b1", "/b2"]).files = ["/b2"] := by
  decide

end Tagger
